import Mathlib

/-!
Verification of the photoslop editor core: a shallow embedding of the
zustand editor store (src/unnamed/part_006), the canvas tool handler
(src/src/components/canvas/CanvasToolHandler.tsx) and the canvas
transform utilities (src/unnamed/part_000), together with proofs about
the layer commands, the history manager, crop, rotate, the eyedropper
and the paint bucket.

JS numbers are modelled as rationals, JS strings as Lean strings,
JS `undefined`-able values as `Option`, and the JS array methods
`slice`/`splice` by explicit index-normalising functions below.
-/

namespace Photoslop

/-- Layer record from src/unnamed/part_003 (interface Layer).  The
optional fields (thumbnail, children, parentId, clipMask,
adjustmentType, adjustmentValues) are never read or written by the
operations verified here and are omitted. -/
structure Layer where
  id : String
  name : String
  visible : Bool
  locked : Bool
  opacity : ℚ
  blendMode : String
  type : String
deriving DecidableEq, Repr

/-- HistoryEntry record from src/unnamed/part_003. -/
structure HistoryEntry where
  id : String
  label : String
  timestamp : Int
  snapshot : String
deriving DecidableEq, Repr

/-- DocumentInfo record from src/unnamed/part_003. -/
structure DocumentInfo where
  width : ℚ
  height : ℚ
  name : String
  zoom : ℚ
deriving DecidableEq, Repr

/-- Selection record from src/unnamed/part_003. -/
structure Selection where
  type : String
  path : Option (List (ℚ × ℚ))
  feather : ℚ
  active : Bool
deriving DecidableEq, Repr

/-- BrushSettings record from src/unnamed/part_003. -/
structure BrushSettings where
  size : ℚ
  hardness : ℚ
  opacity : ℚ
  flow : ℚ
deriving DecidableEq, Repr

/-- ColorAdjustments record from src/unnamed/part_003. -/
structure ColorAdjustments where
  brightness : ℚ
  contrast : ℚ
  exposure : ℚ
  highlights : ℚ
  shadows : ℚ
  temperature : ℚ
  tint : ℚ
  hue : ℚ
  saturation : ℚ
  luminance : ℚ
  vibrance : ℚ
  clarity : ℚ
deriving DecidableEq, Repr

/-- The zustand editor store state (src/unnamed/part_006,
useEditorStore).  The fabricCanvas reference is external to the store
logic and is omitted. -/
structure EditorState where
  document : DocumentInfo
  layers : List Layer
  activeLayerId : Option String
  activeTool : String
  previousTool : String
  brushSettings : BrushSettings
  foregroundColor : String
  backgroundColor : String
  history : List HistoryEntry
  historyIndex : Int
  maxHistory : Nat
  selection : Selection
  adjustments : ColorAdjustments
  showGrid : Bool
  showRulers : Bool
  showGuides : Bool
  snapToGrid : Bool
deriving DecidableEq, Repr

/-- The defaultAdjustments constant of src/unnamed/part_006. -/
def defaultAdjustments : ColorAdjustments :=
  ⟨0, 0, 0, 0, 0, 0, 0, 0, 0, 0, 0, 0⟩

/-- The initial store state from the create call in
src/unnamed/part_006 (document, empty layers, history empty at index
-1, maxHistory 50, default tools, colors and UI toggles). -/
def initialState : EditorState where
  document := ⟨1920, 1080, "Untitled", 1⟩
  layers := []
  activeLayerId := none
  activeTool := "move"
  previousTool := "move"
  brushSettings := ⟨20, 100, 1, 1⟩
  foregroundColor := "#000000"
  backgroundColor := "#ffffff"
  history := []
  historyIndex := -1
  maxHistory := 50
  selection := ⟨"none", none, 0, false⟩
  adjustments := defaultAdjustments
  showGrid := false
  showRulers := true
  showGuides := true
  snapToGrid := false

/-!  JavaScript array index normalisation, shared by slice and splice:
a negative index counts from the end (clamped at 0), a nonnegative one
is clamped at the length. -/

/-- Normalised JS array index for slice/splice arguments. -/
def jsIndex (len : Nat) (i : Int) : Nat :=
  if i < 0 then ((len : Int) + i).toNat else min i.toNat len

/-- JS slice(0, e): the first jsIndex-many elements. -/
def jsSliceTo (arr : List α) (e : Int) : List α :=
  arr.take (jsIndex arr.length e)

/-- JS splice(start, 1): remove at most one element at the normalised
start index, returning the remaining array and the removed element
(none when start lands past the end, as array destructuring of an
empty splice result yields undefined). -/
def jsSpliceDelete1 (arr : List α) (start : Int) : List α × Option α :=
  let i := jsIndex arr.length start
  match arr.get? i with
  | some x => (arr.take i ++ arr.drop (i + 1), some x)
  | none => (arr, none)

/-- JS splice(start, 0, x): insert the value x at the normalised start
index. -/
def jsSpliceInsert (arr : List α) (start : Int) (x : α) : List α :=
  let i := jsIndex arr.length start
  arr.take i ++ x :: arr.drop i

/-!  Store commands, translated one-for-one from src/unnamed/part_006.
zustand set with an object literal merges the returned fields into the
state, so each command is a record update of exactly the returned
fields. -/

/-- Field-wise patch argument of setDocument (a JS object with any
subset of the DocumentInfo fields present). -/
structure DocumentPatch where
  width : Option ℚ := none
  height : Option ℚ := none
  name : Option String := none
  zoom : Option ℚ := none
deriving DecidableEq, Repr

/-- JS object spread of a patch over a DocumentInfo value. -/
def DocumentInfo.merge (d : DocumentInfo) (p : DocumentPatch) : DocumentInfo where
  width := p.width.getD d.width
  height := p.height.getD d.height
  name := p.name.getD d.name
  zoom := p.zoom.getD d.zoom

/-- setDocument from src/unnamed/part_006: merges the supplied fields
into the document record, with no clamping of any field. -/
def setDocument (s : EditorState) (p : DocumentPatch) : EditorState :=
  { s with document := s.document.merge p }

/-- removeLayer from src/unnamed/part_006: filters out the layer with
the given id; when that layer was active, the new activeLayerId is
read from the head of the PRE-filter layers array (the JS code uses
s.layers[0] of the old state, not the filtered list). -/
def removeLayer (s : EditorState) (id : String) : EditorState :=
  { s with
    layers := s.layers.filter (fun l => l.id ≠ id)
    activeLayerId :=
      if s.activeLayerId = some id then (s.layers.head?).map Layer.id
      else s.activeLayerId }

/-- The JS array cells obtained from a list of layers: every present
element is a defined cell. -/
def arrayCells (layers : List Layer) : List (Option Layer) :=
  layers.map some

/-- reorderLayers from src/unnamed/part_006: splice one element out at
fromIdx and splice the (possibly undefined) removed value back in at
toIdx.  The result is the runtime content of the JS array, where a
cell is none exactly when it holds undefined. -/
def reorderLayers (layers : List Layer) (fromIdx toIdx : Int) : List (Option Layer) :=
  let r := jsSpliceDelete1 layers fromIdx
  jsSpliceInsert (arrayCells r.1) toIdx r.2

/-- pushHistory from src/unnamed/part_006: slice the history up to the
current index inclusive, append a fresh entry (uuid and Date.now are
environment inputs, passed as newId and now), shift the oldest entry
off when the bound is exceeded, and point the index at the last
position. -/
def pushHistory (s : EditorState) (label snapshot newId : String) (now : Int) : EditorState :=
  let t := jsSliceTo s.history (s.historyIndex + 1)
  let appended := t ++ [⟨newId, label, now, snapshot⟩]
  let h := if appended.length > s.maxHistory then appended.tail else appended
  { s with history := h, historyIndex := (h.length : Int) - 1 }

/-- undo from src/unnamed/part_006: decrement the index, floored at 0. -/
def undo (s : EditorState) : EditorState :=
  { s with historyIndex := max 0 (s.historyIndex - 1) }

/-- redo from src/unnamed/part_006: increment the index, capped at the
last index. -/
def redo (s : EditorState) : EditorState :=
  { s with historyIndex := min ((s.history.length : Int) - 1) (s.historyIndex + 1) }

/-- canUndo from src/unnamed/part_006. -/
def canUndo (s : EditorState) : Bool :=
  decide (0 < s.historyIndex)

/-- canRedo from src/unnamed/part_006. -/
def canRedo (s : EditorState) : Bool :=
  decide (s.historyIndex < (s.history.length : Int) - 1)

/-- The zoom dir factor and clamp from the zoom case of handleMouseDown
in src/src/components/canvas/CanvasToolHandler.tsx: the new zoom is
Math.min(32, Math.max(0.05, zoom * dir)) with dir 1.25, or 1/1.25 when
altKey is held. -/
def zoomToolNewZoom (zoom : ℚ) (altKey : Bool) : ℚ :=
  let dir : ℚ := if altKey then 1 / (5 / 4) else 5 / 4
  min 32 (max (1 / 20) (zoom * dir))

/-- The complete zoom case of handleMouseDown: compute the clamped new
zoom from the current document zoom and call setDocument with it. -/
def handleMouseDownZoom (s : EditorState) (altKey : Bool) : EditorState :=
  setDocument s { zoom := some (zoomToolNewZoom s.document.zoom altKey) }

/-!  Scene objects.  The fabric.js objects the transform code touches
are modelled with the fields that code reads or writes: position,
size, scale factors, rotation angle, flip flags, fill and the
_isDocBackground marker.  The JS `?? 0` / `?? 1` defaults apply to
freshly constructed objects whose fields are always set, so the fields
are modelled as plain values. -/

/-- Fabric scene object as used by the transform and fill helpers. -/
structure SceneObject where
  left : ℚ
  top : ℚ
  width : ℚ
  height : ℚ
  scaleX : ℚ
  scaleY : ℚ
  angle : ℚ
  flipX : Bool
  flipY : Bool
  fill : String
  isDocBackground : Bool
deriving DecidableEq, Repr

/-- Center of an object as the transform code computes it:
left + width * scaleX / 2 and top + height * scaleY / 2. -/
def objCenter (o : SceneObject) : ℚ × ℚ :=
  (o.left + o.width * o.scaleX / 2, o.top + o.height * o.scaleY / 2)

/-- find of the first _isDocBackground object, as the bgRect lookups in
part_000 and CanvasToolHandler.tsx do. -/
def findBg (objs : List SceneObject) : Option SceneObject :=
  objs.find? (fun o => o.isDocBackground)

/-- In-place mutation of the object returned by the bgRect find: the
first background-flagged object is replaced, all others kept. -/
def updateFirstBg (f : SceneObject → SceneObject) : List SceneObject → List SceneObject
  | [] => []
  | o :: rest =>
      if o.isDocBackground then f o :: rest else o :: updateFirstBg f rest

/-- Crop rectangle read off the crop overlay (left, top, width,
height). -/
structure CropRect where
  left : ℚ
  top : ℚ
  width : ℚ
  height : ℚ
deriving DecidableEq, Repr

/-- JS Math.round: round half toward positive infinity. -/
def jsRound (q : ℚ) : ℚ :=
  (⌊q + 1 / 2⌋ : ℤ)

/-- The per-object shift of applyCrop: left and top decrease by the
crop origin. -/
def shiftObject (cl ct : ℚ) (o : SceneObject) : SceneObject :=
  { o with left := o.left - cl, top := o.top - ct }

/-- applyCrop from src/src/components/canvas/CanvasToolHandler.tsx:
reject a rectangle whose width or height is below 1; otherwise shift
every object by the negated crop origin, then reset the first
background object to position (0,0) with the crop size, and set the
document dimensions to the rounded crop size. -/
def applyCrop (objs : List SceneObject) (doc : DocumentInfo) (r : CropRect) :
    List SceneObject × DocumentInfo :=
  if r.width < 1 ∨ r.height < 1 then (objs, doc)
  else
    let shifted := objs.map (shiftObject r.left r.top)
    let objs2 := updateFirstBg
      (fun o => { o with left := 0, top := 0, width := r.width, height := r.height }) shifted
    (objs2, { doc with width := jsRound r.width, height := jsRound r.height })

/-- The per-object body of rotateCanvas (src/unnamed/part_000) for the
normalized = 90 branch: background objects are skipped; otherwise the
center (cx, cy) moves to (docH - cy, cx), the object is repositioned
so its center lands there, and 90 is added to its angle.  Only docH
enters the 90-degree closed form. -/
def rotate90Obj (docH : ℚ) (o : SceneObject) : SceneObject :=
  if o.isDocBackground then o
  else
    let cx := o.left + o.width * o.scaleX / 2
    let cy := o.top + o.height * o.scaleY / 2
    let newCx := docH - cy
    let newCy := cx
    { o with
      left := newCx - o.width * o.scaleX / 2
      top := newCy - o.height * o.scaleY / 2
      angle := o.angle + 90 }

/-- rotateCanvas from src/unnamed/part_000 specialised to degrees = 90
(normalized = 90, so the closed-form branch runs and the background
dimensions are swapped; the trigonometric default branch is not
reached).  docW and docH come from the background object when one
exists, else from the canvas element dimensions. -/
def rotateCanvas90 (objs : List SceneObject) (canvasW canvasH : ℚ) : List SceneObject :=
  let docW := match findBg objs with | some bg => bg.width | none => canvasW
  let docH := match findBg objs with | some bg => bg.height | none => canvasH
  let objs2 := objs.map (rotate90Obj docH)
  updateFirstBg (fun bg => { bg with left := 0, top := 0, width := docH, height := docW }) objs2

/-!  Pixel sampling.  getImageData is exterior to the embedding: the
sampled pixel is an input.  The hex formatting mirrors the JS
expression ((1 << 24) + (r << 16) + (g << 8) + b).toString(16).slice(1)
from sampleColor / rgbToHex. -/

/-- RGBA pixel returned by getImageData. -/
structure Pixel where
  r : Nat
  g : Nat
  b : Nat
  a : Nat
deriving DecidableEq, Repr

/-- Lowercase hex digit, as JS Number.prototype.toString(16) emits. -/
def hexDigit (n : Nat) : Char :=
  if n < 10 then Char.ofNat (48 + n) else Char.ofNat (87 + n)

/-- Hex digit expansion of a natural number, most significant first,
with a fuel argument bounding the digit count (8 suffices below 2^32,
which covers every value the rgb packing produces). -/
def natToHexAux (fuel : Nat) (n : Nat) : List Char :=
  match fuel with
  | 0 => []
  | fuel + 1 =>
      if n = 0 then [] else natToHexAux fuel (n / 16) ++ [hexDigit (n % 16)]

/-- JS (n).toString(16) for a nonnegative integer below 2^32. -/
def jsToStringHex (n : Nat) : String :=
  if n = 0 then "0" else String.mk (natToHexAux 8 n)

/-- rgbToHex packing from sampleColor (CanvasToolHandler.tsx) and
rgbToHex (part_000): prefix a 1 in bit 24 so the hex string has seven
digits, then drop the leading 1 and prepend the hash. -/
def rgbToHex (r g b : Nat) : String :=
  "#" ++ (jsToStringHex (16777216 + r * 65536 + g * 256 + b)).drop 1

/-- sampleColor from CanvasToolHandler.tsx: the sampled pixel (an
input, read at the viewport-transformed point) is packed to hex and
unconditionally stored as the foreground color; the alpha channel of
the pixel is never consulted. -/
def sampleColor (s : EditorState) (pixel : Pixel) : EditorState :=
  { s with foregroundColor := rgbToHex pixel.r pixel.g pixel.b }

/-- Viewport mapping used by sampleColor to pick the pixel:
screen = scene * vptScale + vptOffset, per axis. -/
def sampleScreenCoord (scene vptScale vptOffset : ℚ) : ℚ :=
  scene * vptScale + vptOffset

/-- Fill assignment used by handlePaintBucket. -/
def setFill (color : String) (o : SceneObject) : SceneObject :=
  { o with fill := color }

/-- handlePaintBucket from CanvasToolHandler.tsx: when an active object
exists (modelled as its index in the object list) its fill is set;
otherwise the first background-flagged object is filled.  No other
object is examined. -/
def handlePaintBucket (objs : List SceneObject) (activeIdx : Option Nat)
    (color : String) : List SceneObject :=
  match activeIdx with
  | some i =>
      match objs[i]? with
      | some o => objs.set i (setFill color o)
      | none => objs
  | none => updateFirstBg (setFill color) objs

/-- Point-in-geometry test following the wording of the spec sentence
about the paint bucket (the top-most non-background object whose
geometry contains the point); the source has no such test, so this
definition exists only to state that part of the claim.  Containment
is the scaled axis-aligned bounding box of the object. -/
def specContainsPoint (o : SceneObject) (x y : ℚ) : Bool :=
  decide (o.left ≤ x) && decide (x ≤ o.left + o.width * o.scaleX) &&
  decide (o.top ≤ y) && decide (y ≤ o.top + o.height * o.scaleY)

/-!  History operation sequences, for the properties quantified over
all interleavings of pushHistory, undo and redo. -/

/-- One call to the history manager. -/
inductive HistoryOp where
  | push (label snapshot newId : String) (now : Int)
  | undo
  | redo
deriving DecidableEq, Repr

/-- Whether the operation is a pushHistory call. -/
def HistoryOp.isPush : HistoryOp → Bool
  | .push _ _ _ _ => true
  | _ => false

/-- Apply one history-manager call to the store state. -/
def applyOp (s : EditorState) : HistoryOp → EditorState
  | .push label snapshot newId now => pushHistory s label snapshot newId now
  | .undo => undo s
  | .redo => redo s

/-- Apply a sequence of history-manager calls left to right. -/
def applyOps (s : EditorState) (ops : List HistoryOp) : EditorState :=
  ops.foldl applyOp s

/-- Center marker of an object: none for the document background (whose
center the rotate claim does not constrain), else its center. -/
def centerMarker (o : SceneObject) : Option (ℚ × ℚ) :=
  if o.isDocBackground then none else some (objCenter o)

/-- Four successive rotateCanvas(90) calls, as in the spec property. -/
def rotateFour (objs : List SceneObject) (canvasW canvasH : ℚ) : List SceneObject :=
  rotateCanvas90 (rotateCanvas90 (rotateCanvas90 (rotateCanvas90 objs canvasW canvasH)
    canvasW canvasH) canvasW canvasH) canvasW canvasH

/-!  Concrete fixtures used by counterexamples and witnesses. -/

/-- Sample layer with id "a". -/
def layerA : Layer := ⟨"a", "Layer A", true, false, 1, "source-over", "raster"⟩

/-- Sample layer with id "b". -/
def layerB : Layer := ⟨"b", "Layer B", true, false, 1, "source-over", "raster"⟩

/-- Store state holding the two sample layers with layer "a" active. -/
def stateAB : EditorState :=
  { initialState with layers := [layerA, layerB], activeLayerId := some "a" }

/-- Store state with a red foreground color. -/
def stateRedFg : EditorState :=
  { initialState with foregroundColor := "#ff0000" }

/-- White 200 by 200 document background object at the origin. -/
def bgObj200 : SceneObject := ⟨0, 0, 200, 200, 1, 1, 0, false, false, "#ffffff", true⟩

/-- A 200 by 200 document record. -/
def doc200 : DocumentInfo := ⟨200, 200, "Untitled", 1⟩

/-- The spec example crop rectangle left 10 top 10 width 100 height 50. -/
def cropR : CropRect := ⟨10, 10, 100, 50⟩

/-- A non-background object at (15, 15). -/
def obj15 : SceneObject := ⟨15, 15, 10, 10, 1, 1, 0, false, false, "#ff0000", false⟩

/-- A green non-background object covering x,y in [10, 60]. -/
def c9obj : SceneObject := ⟨10, 10, 50, 50, 1, 1, 0, false, false, "#00ff00", false⟩

/-!  Shared helper lemmas. -/

/-- Shifting preserves the background flag. -/
theorem shiftObject_isDocBackground (cl ct : ℚ) (o : SceneObject) :
    (shiftObject cl ct o).isDocBackground = o.isDocBackground := rfl

/-- Rotation preserves the background flag. -/
theorem rotate90Obj_isDocBackground (d : ℚ) (o : SceneObject) :
    (rotate90Obj d o).isDocBackground = o.isDocBackground := by
  unfold rotate90Obj; split <;> rfl

/-- updateFirstBg applied to a list whose first background-flagged
element is bg rewrites exactly that element. -/
theorem updateFirstBg_append (f : SceneObject → SceneObject) (pre : List SceneObject)
    (bg : SceneObject) (post : List SceneObject)
    (hpre : ∀ o ∈ pre, o.isDocBackground = false) (hbg : bg.isDocBackground = true) :
    updateFirstBg f (pre ++ bg :: post) = pre ++ f bg :: post := by
  induction pre with
  | nil => simp [updateFirstBg, hbg]
  | cons a l ih =>
      have ha : a.isDocBackground = false := hpre a (by simp)
      simp only [List.cons_append, updateFirstBg, ha, Bool.false_eq_true, if_false]
      exact congrArg (List.cons a) (ih (fun o ho => hpre o (by simp [ho])))

/-- findBg on a list whose first background-flagged element is bg. -/
theorem findBg_append (pre : List SceneObject) (bg : SceneObject) (post : List SceneObject)
    (hpre : ∀ o ∈ pre, o.isDocBackground = false) (hbg : bg.isDocBackground = true) :
    findBg (pre ++ bg :: post) = some bg := by
  induction pre with
  | nil => simp [findBg, List.find?_cons, hbg]
  | cons a l ih =>
      have ha : a.isDocBackground = false := hpre a (by simp)
      simp only [findBg, List.cons_append, List.find?_cons, ha]
      exact ih (fun o ho => hpre o (by simp [ho]))

/-- jsSliceTo with a nonnegative end argument is List.take. -/
theorem jsSliceTo_nonneg (arr : List α) (e : Int) (h : 0 ≤ e) :
    jsSliceTo arr e = arr.take e.toNat := by
  unfold jsSliceTo jsIndex
  rw [if_neg (by omega), ← List.take_take, List.take_length]

/-- History entry fixture. -/
def entry1 : HistoryEntry := ⟨"h1", "Draw shape", 1, "s1"⟩

/-- History entry fixture. -/
def entry2 : HistoryEntry := ⟨"h2", "Crop", 2, "s2"⟩

/-- History entry fixture. -/
def entry3 : HistoryEntry := ⟨"h3", "Brush stroke", 3, "s3"⟩

/-- Store state with three history entries and the index on the middle
one (as after one undo). -/
def stateHist3 : EditorState :=
  { initialState with history := [entry1, entry2, entry3], historyIndex := 1 }

/-- C1: removing the active first layer is a code bug: with layers
[a, b] and layer a active, removeLayer("a") does remove layer a, but
sets activeLayerId to "a" itself (the head of the pre-filter array),
an id no longer present in the layer sequence, instead of the first
remaining layer b or null as the spec requires. -/
theorem removeLayer_first_active_dangles :
    (removeLayer stateAB "a").layers = [layerB] ∧
    (removeLayer stateAB "a").activeLayerId = some "a" ∧
    ∀ l ∈ (removeLayer stateAB "a").layers, l.id ≠ "a" := by
  decide

/-- C2 counterexample: setDocument performs no clamping: from the
initial state, whose zoom 1 satisfies the bound, setDocument with zoom
100 yields a document zoom of 100, violating the claimed bound 32. -/
theorem setDocument_zoom_not_clamped :
    (1 / 20 ≤ initialState.document.zoom ∧ initialState.document.zoom ≤ 32) ∧
    (setDocument initialState { zoom := some 100 }).document.zoom = 100 ∧
    ¬ ((setDocument initialState { zoom := some 100 }).document.zoom ≤ 32) := by
  refine ⟨⟨by norm_num [initialState], by norm_num [initialState]⟩, rfl, ?_⟩
  norm_num [setDocument, DocumentInfo.merge, initialState]

/-- C2 amended: the clamping lives at the zoom tool call-site, not in
setDocument: after any zoom-tool click the document zoom lies in
[0.05, 32], because the tool clamps the product before passing it to
setDocument. -/
theorem zoom_tool_click_keeps_zoom_bounded (s : EditorState) (altKey : Bool) :
    1 / 20 ≤ (handleMouseDownZoom s altKey).document.zoom ∧
    (handleMouseDownZoom s altKey).document.zoom ≤ 32 := by
  have hz : (handleMouseDownZoom s altKey).document.zoom =
      zoomToolNewZoom s.document.zoom altKey := rfl
  rw [hz]
  unfold zoomToolNewZoom
  exact ⟨le_min (by norm_num) (le_max_left _ _), min_le_left _ _⟩

/-- C5: out-of-range reorder is a code bug, not a no-op: with two
layers, reorderLayers(2, 0) removes nothing (index 2 is past the end)
but still inserts the undefined splice result at position 0, growing
the array to three cells with an undefined hole in front. -/
theorem reorderLayers_out_of_range_corrupts :
    reorderLayers [layerA, layerB] 2 0 = [none, some layerA, some layerB] ∧
    reorderLayers [layerA, layerB] 2 0 ≠ arrayCells [layerA, layerB] := by
  decide

/-- C8 counterexample: the eyedropper does not ignore fully transparent
pixels: sampling the all-zero pixel (alpha 0) over a red foreground
replaces the foreground color with "#000000". -/
theorem sampleColor_alpha_zero_changes_foreground :
    (⟨0, 0, 0, 0⟩ : Pixel).a = 0 ∧
    (sampleColor stateRedFg ⟨0, 0, 0, 0⟩).foregroundColor = "#000000" ∧
    (sampleColor stateRedFg ⟨0, 0, 0, 0⟩).foregroundColor ≠ stateRedFg.foregroundColor := by
  decide

/-- C8 amended: sampleColor packs the pixel to hex and stores it as the
foreground color unconditionally, including when alpha = 0; the
background color is untouched. -/
theorem sampleColor_sets_foreground_even_when_transparent (s : EditorState) (px : Pixel)
    (_alpha0 : px.a = 0) :
    (sampleColor s px).foregroundColor = rgbToHex px.r px.g px.b ∧
    (sampleColor s px).backgroundColor = s.backgroundColor :=
  ⟨rfl, rfl⟩

/-- C8 witness: the amended statement evaluated on the transparent
pixel (1, 2, 3, 0) from the initial state. -/
theorem sampleColor_sets_foreground_even_when_transparent_witness :
    (⟨1, 2, 3, 0⟩ : Pixel).a = 0 ∧
    ((sampleColor initialState ⟨1, 2, 3, 0⟩).foregroundColor = rgbToHex 1 2 3 ∧
     (sampleColor initialState ⟨1, 2, 3, 0⟩).backgroundColor = initialState.backgroundColor) :=
  ⟨rfl, sampleColor_sets_foreground_even_when_transparent initialState ⟨1, 2, 3, 0⟩ rfl⟩

/-- C10: undo and redo are record updates of historyIndex alone: the
document, layers, active layer, tool state, brush settings, colors,
history entries, bound, selection, adjustments and UI toggles are all
unchanged by either call. -/
theorem undo_redo_touch_only_historyIndex (s : EditorState) :
    (undo s).document = s.document ∧ (undo s).layers = s.layers ∧
    (undo s).activeLayerId = s.activeLayerId ∧ (undo s).activeTool = s.activeTool ∧
    (undo s).previousTool = s.previousTool ∧ (undo s).brushSettings = s.brushSettings ∧
    (undo s).foregroundColor = s.foregroundColor ∧
    (undo s).backgroundColor = s.backgroundColor ∧ (undo s).history = s.history ∧
    (undo s).maxHistory = s.maxHistory ∧ (undo s).selection = s.selection ∧
    (undo s).adjustments = s.adjustments ∧ (undo s).showGrid = s.showGrid ∧
    (undo s).showRulers = s.showRulers ∧ (undo s).showGuides = s.showGuides ∧
    (undo s).snapToGrid = s.snapToGrid ∧
    (redo s).document = s.document ∧ (redo s).layers = s.layers ∧
    (redo s).activeLayerId = s.activeLayerId ∧ (redo s).activeTool = s.activeTool ∧
    (redo s).previousTool = s.previousTool ∧ (redo s).brushSettings = s.brushSettings ∧
    (redo s).foregroundColor = s.foregroundColor ∧
    (redo s).backgroundColor = s.backgroundColor ∧ (redo s).history = s.history ∧
    (redo s).maxHistory = s.maxHistory ∧ (redo s).selection = s.selection ∧
    (redo s).adjustments = s.adjustments ∧ (redo s).showGrid = s.showGrid ∧
    (redo s).showRulers = s.showRulers ∧ (redo s).showGuides = s.showGuides ∧
    (redo s).snapToGrid = s.snapToGrid :=
  ⟨rfl, rfl, rfl, rfl, rfl, rfl, rfl, rfl, rfl, rfl, rfl, rfl, rfl, rfl, rfl, rfl,
   rfl, rfl, rfl, rfl, rfl, rfl, rfl, rfl, rfl, rfl, rfl, rfl, rfl, rfl, rfl, rfl⟩

/-- C3: from any history state with the bound 50, an index at least -1
and a history within the bound, pushHistory keeps the length within
the bound, leaves the index at the last position, puts the new entry
there, keeps (besides the new entry) only entries at or before the old
current index (the redo-able future is discarded, the oldest entry
evicted on overflow), and when no eviction is needed the new history
is exactly the truncated history plus the new entry. -/
theorem pushHistory_bounded (s : EditorState) (label snapshot newId : String) (now : Int)
    (hmax : s.maxHistory = 50) (hidx : (-1 : Int) ≤ s.historyIndex)
    (hlen : s.history.length ≤ 50) :
    (pushHistory s label snapshot newId now).history.length ≤ 50 ∧
    (pushHistory s label snapshot newId now).historyIndex =
      ((pushHistory s label snapshot newId now).history.length : Int) - 1 ∧
    (pushHistory s label snapshot newId now).history.getLast? =
      some ⟨newId, label, now, snapshot⟩ ∧
    (pushHistory s label snapshot newId now).history.dropLast <:+
      s.history.take (s.historyIndex + 1).toNat ∧
    ((s.history.take (s.historyIndex + 1).toNat).length < 50 →
      (pushHistory s label snapshot newId now).history =
        s.history.take (s.historyIndex + 1).toNat ++ [⟨newId, label, now, snapshot⟩]) := by
  have hs : jsSliceTo s.history (s.historyIndex + 1) =
      s.history.take (s.historyIndex + 1).toNat := jsSliceTo_nonneg _ _ (by omega)
  set t := s.history.take (s.historyIndex + 1).toNat with ht
  set e : HistoryEntry := ⟨newId, label, now, snapshot⟩ with he
  have htlen : t.length ≤ 50 := by rw [ht, List.length_take]; omega
  have hhist : (pushHistory s label snapshot newId now).history =
      if (t ++ [e]).length > 50 then (t ++ [e]).tail else t ++ [e] := by
    simp only [pushHistory, hs, hmax]
  refine ⟨?_, rfl, ?_, ?_, ?_⟩
  · rw [hhist]
    split
    · rw [List.length_tail]; simp only [List.length_append, List.length_cons,
        List.length_nil]; omega
    · rename_i hle
      simp only [List.length_append, List.length_cons, List.length_nil] at hle ⊢; omega
  · rw [hhist]
    split
    · rename_i hgt
      have htne : t ≠ [] := by
        intro h0
        rw [h0] at hgt
        simp at hgt
      rw [List.tail_append_of_ne_nil htne]
      exact List.getLast?_concat _
    · exact List.getLast?_concat _
  · rw [hhist]
    split
    · rename_i hgt
      have htne : t ≠ [] := by
        intro h0
        rw [h0] at hgt
        simp at hgt
      rw [List.tail_append_of_ne_nil htne, List.dropLast_concat]
      exact List.tail_suffix t
    · rw [List.dropLast_concat]
  · intro hsmall
    rw [hhist, if_neg]
    simp only [List.length_append, List.length_cons, List.length_nil]
    omega

/-- C3 witness: pushing onto a three-entry history whose index sits on
the middle entry. -/
theorem pushHistory_bounded_witness :
    (stateHist3.maxHistory = 50 ∧ (-1 : Int) ≤ stateHist3.historyIndex ∧
      stateHist3.history.length ≤ 50) ∧
    ((pushHistory stateHist3 "Label" "Snap" "id9" 99).history.length ≤ 50 ∧
     (pushHistory stateHist3 "Label" "Snap" "id9" 99).historyIndex =
       ((pushHistory stateHist3 "Label" "Snap" "id9" 99).history.length : Int) - 1 ∧
     (pushHistory stateHist3 "Label" "Snap" "id9" 99).history.getLast? =
       some ⟨"id9", "Label", 99, "Snap"⟩ ∧
     (pushHistory stateHist3 "Label" "Snap" "id9" 99).history.dropLast <:+
       stateHist3.history.take (stateHist3.historyIndex + 1).toNat ∧
     ((stateHist3.history.take (stateHist3.historyIndex + 1).toNat).length < 50 →
       (pushHistory stateHist3 "Label" "Snap" "id9" 99).history =
         stateHist3.history.take (stateHist3.historyIndex + 1).toNat ++
           [⟨"id9", "Label", 99, "Snap"⟩])) :=
  ⟨⟨rfl, by decide, by decide⟩,
   pushHistory_bounded stateHist3 "Label" "Snap" "id9" 99 rfl (by decide) (by decide)⟩

/-- Valid history index: within [0, length - 1]. -/
def goodIdx (s : EditorState) : Prop :=
  0 ≤ s.historyIndex ∧ s.historyIndex ≤ (s.history.length : Int) - 1

/-- History-manager calls never change the bound. -/
theorem applyOp_maxHistory (s : EditorState) (op : HistoryOp) :
    (applyOp s op).maxHistory = s.maxHistory := by
  cases op <;> rfl

/-- pushHistory leaves the index valid from any starting state, as long
as the bound is positive. -/
theorem goodIdx_pushHistory (s : EditorState) (label snapshot newId : String) (now : Int)
    (hmax : 1 ≤ s.maxHistory) : goodIdx (pushHistory s label snapshot newId now) := by
  have hpos : 1 ≤ (pushHistory s label snapshot newId now).history.length := by
    simp only [pushHistory]
    split
    · rename_i hgt
      rw [List.length_tail]
      simp only [List.length_append, List.length_cons, List.length_nil] at hgt ⊢
      omega
    · simp
  constructor
  · show (0 : Int) ≤ ((pushHistory s label snapshot newId now).history.length : Int) - 1
    omega
  · exact le_refl _

/-- Every history-manager call preserves index validity when the bound
is positive. -/
theorem goodIdx_applyOp (s : EditorState) (op : HistoryOp) (hmax : 1 ≤ s.maxHistory)
    (h : goodIdx s) : goodIdx (applyOp s op) := by
  cases op with
  | push label snapshot newId now => exact goodIdx_pushHistory s label snapshot newId now hmax
  | undo =>
      obtain ⟨h1, h2⟩ := h
      exact ⟨le_max_left _ _, by simp only [applyOp, undo]; omega⟩
  | redo =>
      obtain ⟨h1, h2⟩ := h
      constructor
      · simp only [applyOp, redo]; omega
      · exact min_le_left _ _

/-- Folding any call sequence preserves index validity. -/
theorem goodIdx_applyOps (ops : List HistoryOp) : ∀ s : EditorState,
    1 ≤ s.maxHistory → goodIdx s → goodIdx (applyOps s ops) := by
  induction ops with
  | nil => exact fun s _ h => h
  | cons op rest ih =>
      intro s hmax h
      exact ih (applyOp s op) (by rw [applyOp_maxHistory]; exact hmax)
        (goodIdx_applyOp s op hmax h)

/-- Once one push has happened, the index is valid. -/
theorem goodIdx_of_any_push (ops : List HistoryOp) : ∀ s : EditorState,
    1 ≤ s.maxHistory → ops.any HistoryOp.isPush = true → goodIdx (applyOps s ops) := by
  induction ops with
  | nil => intro s _ hany; simp [List.any_nil] at hany
  | cons op rest ih =>
      intro s hmax hany
      have hmax2 : 1 ≤ (applyOp s op).maxHistory := by
        rw [applyOp_maxHistory]; exact hmax
      cases op with
      | push label snapshot newId now =>
          exact goodIdx_applyOps rest (applyOp s (.push label snapshot newId now)) hmax2
            (goodIdx_pushHistory s label snapshot newId now hmax)
      | undo =>
          simp only [List.any_cons, HistoryOp.isPush, Bool.false_or] at hany
          exact ih (applyOp s .undo) hmax2 hany
      | redo =>
          simp only [List.any_cons, HistoryOp.isPush, Bool.false_or] at hany
          exact ih (applyOp s .redo) hmax2 hany

/-- undo is the identity at index 0. -/
theorem undo_noop_at_zero (s : EditorState) (h : s.historyIndex = 0) : undo s = s := by
  cases s with
  | mk document layers activeLayerId activeTool previousTool brushSettings fg bg
      history historyIndex maxHistory selection adjustments g r gu sn =>
    simp only [undo, EditorState.mk.injEq, and_true, true_and]
    simp only [EditorState.historyIndex] at h
    omega

/-- redo is the identity at the last index. -/
theorem redo_noop_at_last (s : EditorState)
    (h : s.historyIndex = (s.history.length : Int) - 1) : redo s = s := by
  cases s with
  | mk document layers activeLayerId activeTool previousTool brushSettings fg bg
      history historyIndex maxHistory selection adjustments g r gu sn =>
    simp only [redo, EditorState.mk.injEq, and_true, true_and]
    simp only [EditorState.historyIndex, EditorState.history] at h
    omega

/-- C4 counterexample: the claim quantifies over every call sequence
from the initial state, but a single undo from the initial state (whose
history is empty at index -1) raises the index to 0 while the history
stays empty, so the index does not lie within [0, length - 1]. -/
theorem undo_from_initial_escapes_bounds :
    (applyOps initialState [.undo]).historyIndex = 0 ∧
    (applyOps initialState [.undo]).history.length = 0 ∧
    ¬ ((applyOps initialState [.undo]).historyIndex ≤
        ((applyOps initialState [.undo]).history.length : Int) - 1) := by
  decide

/-- C4 amended: for every sequence of pushHistory, undo and redo calls
from the initial state that contains at least one pushHistory call,
the resulting index lies within [0, length - 1]; canUndo and canRedo
match the index bounds exactly, and undo at index 0 and redo at the
last index are complete no-ops. -/
theorem history_index_invariant (ops : List HistoryOp)
    (hany : ops.any HistoryOp.isPush = true) :
    (0 ≤ (applyOps initialState ops).historyIndex ∧
      (applyOps initialState ops).historyIndex ≤
        ((applyOps initialState ops).history.length : Int) - 1) ∧
    (canUndo (applyOps initialState ops) = true ↔
      0 < (applyOps initialState ops).historyIndex) ∧
    (canRedo (applyOps initialState ops) = true ↔
      (applyOps initialState ops).historyIndex <
        ((applyOps initialState ops).history.length : Int) - 1) ∧
    ((applyOps initialState ops).historyIndex = 0 →
      undo (applyOps initialState ops) = applyOps initialState ops) ∧
    ((applyOps initialState ops).historyIndex =
        ((applyOps initialState ops).history.length : Int) - 1 →
      redo (applyOps initialState ops) = applyOps initialState ops) :=
  ⟨goodIdx_of_any_push ops initialState (by decide) hany,
   decide_eq_true_iff,
   decide_eq_true_iff,
   undo_noop_at_zero _,
   redo_noop_at_last _⟩

/-- C4 witness: the single-push sequence. -/
theorem history_index_invariant_witness :
    ([HistoryOp.push "Draw shape" "snap" "id1" 7].any HistoryOp.isPush = true) ∧
    ((0 ≤ (applyOps initialState [HistoryOp.push "Draw shape" "snap" "id1" 7]).historyIndex ∧
      (applyOps initialState [HistoryOp.push "Draw shape" "snap" "id1" 7]).historyIndex ≤
        ((applyOps initialState [HistoryOp.push "Draw shape" "snap" "id1" 7]).history.length : Int) - 1) ∧
    (canUndo (applyOps initialState [HistoryOp.push "Draw shape" "snap" "id1" 7]) = true ↔
      0 < (applyOps initialState [HistoryOp.push "Draw shape" "snap" "id1" 7]).historyIndex) ∧
    (canRedo (applyOps initialState [HistoryOp.push "Draw shape" "snap" "id1" 7]) = true ↔
      (applyOps initialState [HistoryOp.push "Draw shape" "snap" "id1" 7]).historyIndex <
        ((applyOps initialState [HistoryOp.push "Draw shape" "snap" "id1" 7]).history.length : Int) - 1) ∧
    ((applyOps initialState [HistoryOp.push "Draw shape" "snap" "id1" 7]).historyIndex = 0 →
      undo (applyOps initialState [HistoryOp.push "Draw shape" "snap" "id1" 7]) =
        applyOps initialState [HistoryOp.push "Draw shape" "snap" "id1" 7]) ∧
    ((applyOps initialState [HistoryOp.push "Draw shape" "snap" "id1" 7]).historyIndex =
        ((applyOps initialState [HistoryOp.push "Draw shape" "snap" "id1" 7]).history.length : Int) - 1 →
      redo (applyOps initialState [HistoryOp.push "Draw shape" "snap" "id1" 7]) =
        applyOps initialState [HistoryOp.push "Draw shape" "snap" "id1" 7])) :=
  ⟨rfl, history_index_invariant [HistoryOp.push "Draw shape" "snap" "id1" 7] rfl⟩

/-- C6 counterexample: crop does not shift every object: cropping a
canvas holding only the background object with the rectangle
(10, 10, 100, 50) leaves the background at the origin with the crop
size, instead of shifting it to (-10, -10) as the claim states for
every object. -/
theorem applyCrop_does_not_shift_background :
    (applyCrop [bgObj200] doc200 cropR).1 =
      [{ bgObj200 with left := 0, top := 0, width := 100, height := 50 }] ∧
    (applyCrop [bgObj200] doc200 cropR).1 ≠ [shiftObject 10 10 bgObj200] := by
  have h1 : (applyCrop [bgObj200] doc200 cropR).1 =
      [{ bgObj200 with left := 0, top := 0, width := 100, height := 50 }] := by
    norm_num [applyCrop, cropR, doc200, bgObj200, updateFirstBg, shiftObject]
  refine ⟨h1, ?_⟩
  rw [h1]
  intro hEq
  simp only [List.cons.injEq, and_true] at hEq
  have h2 := congrArg SceneObject.width hEq
  norm_num [shiftObject, bgObj200] at h2

/-- C6 amended: crop with a degenerate rectangle (width or height below
1) is a no-op; otherwise every non-background object is shifted by the
negated crop origin, the first background object is repositioned to
the origin with the crop size, and the document dimensions become the
rounded crop size. -/
theorem applyCrop_behavior (pre : List SceneObject) (bg : SceneObject)
    (post : List SceneObject) (doc : DocumentInfo) (r : CropRect)
    (hpre : ∀ o ∈ pre, o.isDocBackground = false)
    (hbg : bg.isDocBackground = true) :
    (r.width < 1 ∨ r.height < 1 →
      applyCrop (pre ++ bg :: post) doc r = (pre ++ bg :: post, doc)) ∧
    (1 ≤ r.width → 1 ≤ r.height →
      applyCrop (pre ++ bg :: post) doc r =
        (pre.map (shiftObject r.left r.top) ++
          { bg with left := 0, top := 0, width := r.width, height := r.height } ::
            post.map (shiftObject r.left r.top),
         { doc with width := jsRound r.width, height := jsRound r.height })) := by
  constructor
  · intro hdeg
    simp only [applyCrop]
    rw [if_pos hdeg]
  · intro hw hh
    have hpremap : ∀ o ∈ pre.map (shiftObject r.left r.top), o.isDocBackground = false := by
      intro o ho
      obtain ⟨a, ha, rfl⟩ := List.mem_map.mp ho
      rw [shiftObject_isDocBackground]
      exact hpre a ha
    have hbgshift : (shiftObject r.left r.top bg).isDocBackground = true := by
      rw [shiftObject_isDocBackground]; exact hbg
    simp only [applyCrop]
    rw [if_neg (by push_neg; exact ⟨by linarith, by linarith⟩)]
    rw [List.map_append, List.map_cons,
      updateFirstBg_append _ _ _ _ hpremap hbgshift]
    rfl

/-- C6 witness: the spec example: rectangle (10, 10, 100, 50) on a
200 by 200 document with the background and one object at (15, 15):
the document becomes 100 by 50 and the object lands at (5, 5). -/
theorem applyCrop_behavior_witness :
    ((∀ o ∈ ([] : List SceneObject), o.isDocBackground = false) ∧
      bgObj200.isDocBackground = true) ∧
    applyCrop ([] ++ bgObj200 :: [obj15]) doc200 cropR =
      (([] : List SceneObject).map (shiftObject cropR.left cropR.top) ++
        { bgObj200 with left := 0, top := 0, width := cropR.width, height := cropR.height } ::
          [obj15].map (shiftObject cropR.left cropR.top),
       { doc200 with width := jsRound cropR.width, height := jsRound cropR.height }) ∧
    (applyCrop [bgObj200, obj15] doc200 cropR).1[1]? =
      some { obj15 with left := 5, top := 5 } ∧
    (applyCrop [bgObj200, obj15] doc200 cropR).2.width = 100 ∧
    (applyCrop [bgObj200, obj15] doc200 cropR).2.height = 50 := by
  refine ⟨⟨by simp, rfl⟩,
    (applyCrop_behavior [] bgObj200 [obj15] doc200 cropR (by simp) rfl).2
      (by norm_num [cropR]) (by norm_num [cropR]), ?_, ?_, ?_⟩ <;>
    norm_num [applyCrop, cropR, doc200, bgObj200, obj15, updateFirstBg, shiftObject, jsRound]

/-- Cells of the list that are not background-flagged are untouched by
updateFirstBg. -/
theorem updateFirstBg_getElem?_nonbg (f : SceneObject → SceneObject) :
    ∀ (objs : List SceneObject) (j : Nat) (o : SceneObject),
      objs[j]? = some o → o.isDocBackground = false →
      (updateFirstBg f objs)[j]? = some o := by
  intro objs
  induction objs with
  | nil => intro j o h _; simp at h
  | cons a l ih =>
      intro j o h hflag
      cases j with
      | zero =>
          rw [List.getElem?_cons_zero] at h
          injection h with h
          subst h
          simp [updateFirstBg, hflag]
      | succ j =>
          rw [List.getElem?_cons_succ] at h
          cases hab : a.isDocBackground
          · simp only [updateFirstBg, hab, Bool.false_eq_true, if_false,
              List.getElem?_cons_succ]
            exact ih j o h hflag
          · simp only [updateFirstBg, hab, if_true, List.getElem?_cons_succ]
            exact h

/-- C9 counterexample: the paint bucket performs no containment search:
with no active object and a click at (20, 20), which lies inside the
non-background object, the code fills the background object and leaves
the containing object with its old fill, contrary to the claimed
top-most-containing-object rule. -/
theorem paintBucket_skips_containing_object :
    specContainsPoint c9obj 20 20 = true ∧
    c9obj.isDocBackground = false ∧
    handlePaintBucket [bgObj200, c9obj] none "#123456" =
      [setFill "#123456" bgObj200, c9obj] ∧
    (handlePaintBucket [bgObj200, c9obj] none "#123456")[1]? ≠
      some (setFill "#123456" c9obj) := by
  refine ⟨?_, rfl, ?_, ?_⟩
  · norm_num [specContainsPoint, c9obj]
  · rfl
  · intro hEq
    rw [show handlePaintBucket [bgObj200, c9obj] none "#123456" =
      [setFill "#123456" bgObj200, c9obj] from rfl] at hEq
    simp only [List.getElem?_cons_succ, List.getElem?_cons_zero, Option.some.injEq] at hEq
    have h2 := congrArg SceneObject.fill hEq
    simp [setFill, c9obj] at h2

/-- C9 amended: with an active object its fill is set to the given
color; with no active object the first background object is filled and
every non-background object is left untouched, whatever point was
clicked (the pointer plays no role in the fill target). -/
theorem paintBucket_behavior (objs : List SceneObject) (color : String) :
    (∀ (i : Nat) (o : SceneObject), objs[i]? = some o →
      handlePaintBucket objs (some i) color = objs.set i (setFill color o)) ∧
    (∀ (j : Nat) (o : SceneObject), objs[j]? = some o → o.isDocBackground = false →
      (handlePaintBucket objs none color)[j]? = some o) ∧
    (∀ pre bgo post, (∀ o ∈ pre, o.isDocBackground = false) →
      bgo.isDocBackground = true →
      handlePaintBucket (pre ++ bgo :: post) none color =
        pre ++ setFill color bgo :: post) := by
  refine ⟨?_, ?_, ?_⟩
  · intro i o h
    simp [handlePaintBucket, h]
  · intro j o h hflag
    exact updateFirstBg_getElem?_nonbg (setFill color) objs j o h hflag
  · intro pre bgo post hpre hbg
    exact updateFirstBg_append (setFill color) pre bgo post hpre hbg

/-- C9 witness: both branches on a concrete canvas of background plus
one object. -/
theorem paintBucket_behavior_witness :
    ([bgObj200, c9obj][1]? = some c9obj ∧ c9obj.isDocBackground = false) ∧
    handlePaintBucket [bgObj200, c9obj] (some 1) "#123456" =
      [bgObj200, c9obj].set 1 (setFill "#123456" c9obj) ∧
    (handlePaintBucket [bgObj200, c9obj] none "#123456")[1]? = some c9obj ∧
    handlePaintBucket ([] ++ bgObj200 :: [c9obj]) none "#123456" =
      [] ++ setFill "#123456" bgObj200 :: [c9obj] := by
  have h := paintBucket_behavior [bgObj200, c9obj] "#123456"
  exact ⟨⟨rfl, rfl⟩, h.1 1 c9obj rfl, h.2.1 1 c9obj rfl rfl,
    h.2.2 [] bgObj200 [c9obj] (by simp) rfl⟩

/-- Mapping a quarter rotation over a background-free list keeps it
background-free. -/
theorem map_rotate_nonbg (d : ℚ) (l : List SceneObject)
    (h : ∀ o ∈ l, o.isDocBackground = false) :
    ∀ o ∈ l.map (rotate90Obj d), o.isDocBackground = false := by
  intro o ho
  obtain ⟨a, ha, rfl⟩ := List.mem_map.mp ho
  rw [rotate90Obj_isDocBackground]
  exact h a ha

/-- Action of rotateCanvas(90) on a scene whose first background object
is bg: every other object is rotated with docH = bg.height and the
background moves to the origin with swapped dimensions. -/
theorem rotateCanvas90_decomp (pre : List SceneObject) (bg : SceneObject)
    (post : List SceneObject) (cw ch : ℚ)
    (hpre : ∀ o ∈ pre, o.isDocBackground = false)
    (hbg : bg.isDocBackground = true) :
    rotateCanvas90 (pre ++ bg :: post) cw ch =
      pre.map (rotate90Obj bg.height) ++
        { bg with left := 0, top := 0, width := bg.height, height := bg.width } ::
          post.map (rotate90Obj bg.height) := by
  have hfind : findBg (pre ++ bg :: post) = some bg := findBg_append pre bg post hpre hbg
  have hbgrot : rotate90Obj bg.height bg = bg := by
    unfold rotate90Obj
    rw [if_pos hbg]
  simp only [rotateCanvas90, hfind]
  rw [List.map_append, List.map_cons, hbgrot,
    updateFirstBg_append _ _ _ _ (map_rotate_nonbg _ _ hpre) hbg]

/-- Four quarter rotations with alternating document heights preserve
the center marker of every object: background objects are untouched by
the per-object rotation, and any other center returns to its original
point exactly. -/
theorem centerMarker_rotate_four (w h : ℚ) (o : SceneObject) :
    centerMarker (rotate90Obj w (rotate90Obj h (rotate90Obj w (rotate90Obj h o)))) =
      centerMarker o := by
  cases hflag : o.isDocBackground
  · simp only [rotate90Obj, centerMarker, objCenter, hflag, Bool.false_eq_true,
      if_false, Option.some.injEq, Prod.mk.injEq]
    constructor <;> ring
  · simp [rotate90Obj, centerMarker, hflag]

/-- C7: four successive rotateCanvas(90) calls return every
non-background center (exactly, hence within any tolerance) and the
background-carried document dimensions to their original values, for
any document, including one whose width and height differ. -/
theorem rotateFour_restores (pre post : List SceneObject) (bg : SceneObject) (cw ch : ℚ)
    (hpre : ∀ o ∈ pre, o.isDocBackground = false)
    (hbg : bg.isDocBackground = true) :
    (rotateFour (pre ++ bg :: post) cw ch).map centerMarker =
      (pre ++ bg :: post).map centerMarker ∧
    (findBg (rotateFour (pre ++ bg :: post) cw ch)).map (fun b => (b.width, b.height)) =
      some (bg.width, bg.height) := by
  have h1 := rotateCanvas90_decomp pre bg post cw ch hpre hbg
  have h2 := rotateCanvas90_decomp (pre.map (rotate90Obj bg.height))
    ({ bg with left := 0, top := 0, width := bg.height, height := bg.width })
    (post.map (rotate90Obj bg.height)) cw ch
    (map_rotate_nonbg _ _ hpre) hbg
  dsimp only at h2
  have h3 := rotateCanvas90_decomp
    ((pre.map (rotate90Obj bg.height)).map (rotate90Obj bg.width))
    ({ bg with left := 0, top := 0, width := bg.width, height := bg.height })
    ((post.map (rotate90Obj bg.height)).map (rotate90Obj bg.width)) cw ch
    (map_rotate_nonbg _ _ (map_rotate_nonbg _ _ hpre)) hbg
  dsimp only at h3
  have h4 := rotateCanvas90_decomp
    (((pre.map (rotate90Obj bg.height)).map (rotate90Obj bg.width)).map
      (rotate90Obj bg.height))
    ({ bg with left := 0, top := 0, width := bg.height, height := bg.width })
    (((post.map (rotate90Obj bg.height)).map (rotate90Obj bg.width)).map
      (rotate90Obj bg.height)) cw ch
    (map_rotate_nonbg _ _ (map_rotate_nonbg _ _ (map_rotate_nonbg _ _ hpre))) hbg
  dsimp only at h4
  have hquad : rotateFour (pre ++ bg :: post) cw ch =
      (((pre.map (rotate90Obj bg.height)).map (rotate90Obj bg.width)).map
          (rotate90Obj bg.height)).map (rotate90Obj bg.width) ++
        { bg with left := 0, top := 0, width := bg.width, height := bg.height } ::
          (((post.map (rotate90Obj bg.height)).map (rotate90Obj bg.width)).map
            (rotate90Obj bg.height)).map (rotate90Obj bg.width) := by
    rw [rotateFour, h1, h2, h3, h4]
  constructor
  · rw [hquad]
    simp only [List.map_append, List.map_cons, List.map_map]
    refine congrArg₂ _ ?_ (congrArg₂ _ ?_ ?_)
    · exact List.map_congr_left (fun a _ => centerMarker_rotate_four bg.width bg.height a)
    · simp [centerMarker, hbg]
    · exact List.map_congr_left (fun a _ => centerMarker_rotate_four bg.width bg.height a)
  · rw [hquad, findBg_append _
      ({ bg with left := 0, top := 0, width := bg.width, height := bg.height }) _
      (map_rotate_nonbg _ _ (map_rotate_nonbg _ _ (map_rotate_nonbg _ _
        (map_rotate_nonbg _ _ hpre)))) hbg]
    rfl

/-- White 200 by 100 background object, a document whose width and
height differ. -/
def bgObjWide : SceneObject := ⟨0, 0, 200, 100, 1, 1, 0, false, false, "#ffffff", true⟩

/-- C7 witness: a 200 by 100 document holding one object at (15, 15). -/
theorem rotateFour_restores_witness :
    ((∀ o ∈ ([] : List SceneObject), o.isDocBackground = false) ∧
      bgObjWide.isDocBackground = true) ∧
    ((rotateFour ([] ++ bgObjWide :: [obj15]) 800 600).map centerMarker =
      (([] : List SceneObject) ++ bgObjWide :: [obj15]).map centerMarker ∧
     (findBg (rotateFour ([] ++ bgObjWide :: [obj15]) 800 600)).map
        (fun b => (b.width, b.height)) = some (bgObjWide.width, bgObjWide.height)) :=
  ⟨⟨by simp, rfl⟩, rotateFour_restores [] [obj15] bgObjWide 800 600 (by simp) rfl⟩

end Photoslop
